import Mathlib

/-!
Verification of the Ichimoku Cloud engine from `technical_analyzer/src/main.rs`.

The Rust code is shallowly embedded: `f64` prices become `ℚ` (every finite
double is a rational, and all arithmetic the engine performs on its inputs is
exact except for the explicit 8-decimal rounding step, which is modelled
exactly below). The engine struct, its constructor `new`, the batch operation
`initialize` and the incremental operation `calculate` are translated field
by field from the source.
-/

/-- Mirrors `format!("{:.8}", value)` followed by a successful parse: the
nearest decimal number with 8 fractional digits (ties round half-up; for
inputs that are binary floating-point numbers a tie can never occur, so any
tie rule agrees with Rust's formatting there). -/
def format_8 (value : ℚ) : ℚ := (⌊value * 10 ^ 8 + 1 / 2⌋ : ℚ) / 10 ^ 8

/-- Mirrors `.parse::<f64>()` applied to the formatted string: parsing a
decimal numeral with 8 fractional digits always succeeds. -/
def parse_formatted (value : ℚ) : Option ℚ := some (format_8 value)

/-- Mirrors `round_to_8_decimals`: format to 8 decimals, parse back, and on a
parse failure fall back to the unchanged input (`unwrap_or(value)`). -/
def round_to_8_decimals (value : ℚ) : ℚ := (parse_formatted value).getD value

/-- Mirrors `enum TimeFrame`. -/
inductive TimeFrame
  | OneMinute
  | FiveMinutes
  | OneHour
  | OneDay
  | OneMonth
deriving DecidableEq

/-- Mirrors `enum CandlestickState`. -/
inductive CandlestickState
  | Open
  | Closed
deriving DecidableEq

/-- Mirrors `struct Candlestick`. -/
structure Candlestick where
  «open» : ℚ
  close : ℚ
  high : ℚ
  low : ℚ
  time_frame : TimeFrame
  timestamp : Option Int
  number_of_trades : Nat
  state : CandlestickState
deriving DecidableEq

/-- Mirrors `struct IchimokuCloudParameters`. -/
structure IchimokuCloudParameters where
  short_period : Nat
  medium_period : Nat
  long_period : Nat
deriving DecidableEq

/-- Mirrors `struct IchimokuCloudResult`. -/
structure IchimokuCloudResult where
  tenkan_sen : ℚ
  kijun_sen : ℚ
  senkou_span_a : ℚ
  senkou_span_b : ℚ
  chikou_span : ℚ
deriving DecidableEq

/-- The value of the Rust constant `f64::MAX`, as a rational:
`(2^53 - 1) * 2^971`. -/
def f64_MAX : ℚ := (2 ^ 53 - 1) * 2 ^ 971

/-- The value of the Rust constant `f64::MIN`, as a rational: `-f64::MAX`. -/
def f64_MIN : ℚ := -f64_MAX

/-- Mirrors `struct IchimokuCloud`. -/
structure IchimokuCloud where
  short_period_min : ℚ
  short_period_max : ℚ
  medium_period_min : ℚ
  medium_period_max : ℚ
  long_period_min : ℚ
  long_period_max : ℚ
  parameters : IchimokuCloudParameters
  num_processed : Nat
deriving DecidableEq

/-- Mirrors `IchimokuCloud::new`. -/
def IchimokuCloud.new (params : IchimokuCloudParameters) : IchimokuCloud where
  short_period_min := f64_MAX
  short_period_max := f64_MIN
  medium_period_min := f64_MAX
  medium_period_max := f64_MIN
  long_period_min := f64_MAX
  long_period_max := f64_MIN
  parameters := params
  num_processed := 0

/-- The body of the `for` loop of `IchimokuCloud::initialize` (lines 85-117):
increment the counter, fold the candle's low/high into all six extrema,
compute the five lines, and emit `Some` precisely when
`num_processed >= parameters.long_period`. -/
def IchimokuCloud.initStep (s : IchimokuCloud) (candle : Candlestick) :
    IchimokuCloud × Option IchimokuCloudResult :=
  let s1 : IchimokuCloud :=
    { s with
      num_processed := s.num_processed + 1
      short_period_min := min s.short_period_min candle.low
      short_period_max := max s.short_period_max candle.high
      medium_period_min := min s.medium_period_min candle.low
      medium_period_max := max s.medium_period_max candle.high
      long_period_min := min s.long_period_min candle.low
      long_period_max := max s.long_period_max candle.high }
  let tenkan_sen := (s1.short_period_max + s1.short_period_min) / 2
  let kijun_sen := (s1.medium_period_max + s1.medium_period_min) / 2
  let senkou_span_a := (tenkan_sen + kijun_sen) / 2
  let senkou_span_b := (s1.long_period_max + s1.long_period_min) / 2
  let chikou_span := candle.close
  let ichimoku_result : Option IchimokuCloudResult :=
    if s1.parameters.long_period ≤ s1.num_processed then
      some
        { tenkan_sen := round_to_8_decimals tenkan_sen
          kijun_sen := round_to_8_decimals kijun_sen
          senkou_span_a := round_to_8_decimals senkou_span_a
          senkou_span_b := round_to_8_decimals senkou_span_b
          chikou_span := round_to_8_decimals chikou_span }
    else none
  (s1, ichimoku_result)

/-- Mirrors `IchimokuCloud::initialize`: iterate `initStep` over the input
sequence in order, returning the final state and, in input order, each candle
paired with its optional result. -/
def IchimokuCloud.initialize : IchimokuCloud → List Candlestick →
    IchimokuCloud × List (Candlestick × Option IchimokuCloudResult)
  | s, [] => (s, [])
  | s, candle :: rest =>
    let step := IchimokuCloud.initStep s candle
    let next := IchimokuCloud.initialize step.1 rest
    (next.1, (candle, step.2) :: next.2)

/-- Mirrors `IchimokuCloud::calculate`: fold the candle into temporary copies
of the extrema, compute the five lines from the temporaries, commit the
temporaries and increment the counter only when the candle is `Closed`, then
emit `Some` precisely when `num_processed >= parameters.long_period` (read
after any commit). -/
def IchimokuCloud.calculate (s : IchimokuCloud) (candle : Candlestick) :
    IchimokuCloud × Option IchimokuCloudResult :=
  let temp_short_min := min s.short_period_min candle.low
  let temp_short_max := max s.short_period_max candle.high
  let temp_medium_min := min s.medium_period_min candle.low
  let temp_medium_max := max s.medium_period_max candle.high
  let temp_long_min := min s.long_period_min candle.low
  let temp_long_max := max s.long_period_max candle.high
  let tenkan_sen := (temp_short_max + temp_short_min) / 2
  let kijun_sen := (temp_medium_max + temp_medium_min) / 2
  let senkou_span_a := (tenkan_sen + kijun_sen) / 2
  let senkou_span_b := (temp_long_max + temp_long_min) / 2
  let chikou_span := candle.close
  let s' : IchimokuCloud :=
    match candle.state with
    | CandlestickState.Closed =>
      { s with
        short_period_min := temp_short_min
        short_period_max := temp_short_max
        medium_period_min := temp_medium_min
        medium_period_max := temp_medium_max
        long_period_min := temp_long_min
        long_period_max := temp_long_max
        num_processed := s.num_processed + 1 }
    | CandlestickState.Open => s
  let result : Option IchimokuCloudResult :=
    if s'.parameters.long_period ≤ s'.num_processed then
      some
        { tenkan_sen := round_to_8_decimals tenkan_sen
          kijun_sen := round_to_8_decimals kijun_sen
          senkou_span_a := round_to_8_decimals senkou_span_a
          senkou_span_b := round_to_8_decimals senkou_span_b
          chikou_span := round_to_8_decimals chikou_span }
    else none
  (s', result)

/-- The state transition shared by both entry points on a committed candle:
fold the candle's low/high into all six extrema and increment the counter.
`initStep`'s state component is exactly this, and so is `calculate`'s when the
candle is `Closed`. -/
def foldCandle (s : IchimokuCloud) (candle : Candlestick) : IchimokuCloud :=
  { s with
    num_processed := s.num_processed + 1
    short_period_min := min s.short_period_min candle.low
    short_period_max := max s.short_period_max candle.high
    medium_period_min := min s.medium_period_min candle.low
    medium_period_max := max s.medium_period_max candle.high
    long_period_min := min s.long_period_min candle.low
    long_period_max := max s.long_period_max candle.high }

/-- One call to either entry point of the engine. -/
inductive EngineOp
  | init (cs : List Candlestick)
  | update (c : Candlestick)

/-- The state after one engine call (the result is discarded). -/
def runOp (s : IchimokuCloud) : EngineOp → IchimokuCloud
  | EngineOp.init cs => ( IchimokuCloud.initialize s cs).1
  | EngineOp.update c => (IchimokuCloud.calculate s c).1

/-- The state after a sequence of engine calls. -/
def runOps (s : IchimokuCloud) (ops : List EngineOp) : IchimokuCloud :=
  List.foldl runOp s ops

/-- The candles an engine call consumes, in order. -/
def opCandles : EngineOp → List Candlestick
  | EngineOp.init cs => cs
  | EngineOp.update c => [c]

/-- The candles a sequence of engine calls consumes, in order. -/
def opsCandles (ops : List EngineOp) : List Candlestick :=
  (ops.map opCandles).flatten

/-- The unrounded tenkan-sen a call computes at state `s` on candle `candle`:
midpoint of the short-window extrema after folding in the candle. -/
def tenkan_raw (s : IchimokuCloud) (candle : Candlestick) : ℚ :=
  (max s.short_period_max candle.high + min s.short_period_min candle.low) / 2

/-- The unrounded kijun-sen a call computes at state `s` on candle `candle`:
midpoint of the medium-window extrema after folding in the candle. -/
def kijun_raw (s : IchimokuCloud) (candle : Candlestick) : ℚ :=
  (max s.medium_period_max candle.high + min s.medium_period_min candle.low) / 2

/-- The candle's high is below all three running maxima and its low above all
three running minima of state `s`. -/
def boundsCandle (s : IchimokuCloud) (candle : Candlestick) : Prop :=
  candle.high ≤ s.short_period_max ∧ candle.high ≤ s.medium_period_max ∧
  candle.high ≤ s.long_period_max ∧
  s.short_period_min ≤ candle.low ∧ s.medium_period_min ≤ candle.low ∧
  s.long_period_min ≤ candle.low

/-- State `t`'s extrema enclose state `s`'s: every maximum grew (or stayed)
and every minimum shrank (or stayed) going from `s` to `t`. -/
def extremaLE (s t : IchimokuCloud) : Prop :=
  s.short_period_max ≤ t.short_period_max ∧
  s.medium_period_max ≤ t.medium_period_max ∧
  s.long_period_max ≤ t.long_period_max ∧
  t.short_period_min ≤ s.short_period_min ∧
  t.medium_period_min ≤ s.medium_period_min ∧
  t.long_period_min ≤ s.long_period_min

/-- The three minima agree and the three maxima agree. -/
def extremaAligned (s : IchimokuCloud) : Prop :=
  s.short_period_min = s.long_period_min ∧
  s.medium_period_min = s.long_period_min ∧
  s.short_period_max = s.long_period_max ∧
  s.medium_period_max = s.long_period_max

/-- Two states agree on everything a call's output can depend on: the six
extrema, the counter, and the long period. (The short and medium periods are
deliberately absent.) -/
def obsEq (s t : IchimokuCloud) : Prop :=
  s.short_period_min = t.short_period_min ∧
  s.short_period_max = t.short_period_max ∧
  s.medium_period_min = t.medium_period_min ∧
  s.medium_period_max = t.medium_period_max ∧
  s.long_period_min = t.long_period_min ∧
  s.long_period_max = t.long_period_max ∧
  s.num_processed = t.num_processed ∧
  s.parameters.long_period = t.parameters.long_period

/-- The candle of the spec's concrete scenario: low 100, high 110, close 105,
Closed. -/
def c7_candle : Candlestick where
  «open» := 105
  close := 105
  high := 110
  low := 100
  time_frame := TimeFrame.OneMinute
  timestamp := none
  number_of_trades := 0
  state := CandlestickState.Closed

/-- The engine state reached after processing `k` copies of `c7_candle`
(`k ≥ 1`): all minima 100, all maxima 110, counter `k`. -/
def c7_state (params : IchimokuCloudParameters) (k : Nat) : IchimokuCloud where
  short_period_min := 100
  short_period_max := 110
  medium_period_min := 100
  medium_period_max := 110
  long_period_min := 100
  long_period_max := 110
  parameters := params
  num_processed := k

/-- The result emitted while every processed candle had low 100, high 110,
close 105. -/
def c7_result : IchimokuCloudResult where
  tenkan_sen := 105
  kijun_sen := 105
  senkou_span_a := 105
  senkou_span_b := 105
  chikou_span := 105

/-- A still-forming (Open) candle, used to exercise the speculative path of
`calculate`. -/
def c2_candle : Candlestick where
  «open» := 101
  close := 120
  high := 130
  low := 90
  time_frame := TimeFrame.OneHour
  timestamp := some 1632405600
  number_of_trades := 5
  state := CandlestickState.Open

theorem format_8_format_8 (x : ℚ) : format_8 (format_8 x) = format_8 x := by
  unfold format_8
  have h8 : ((10 : ℚ) ^ 8) ≠ 0 := by norm_num
  rw [div_mul_cancel₀ _ h8, Int.floor_int_add]
  norm_num

theorem round_to_8_decimals_intCast (n : ℤ) :
    round_to_8_decimals ((n : ℚ)) = (n : ℚ) := by
  show format_8 _ = _
  unfold format_8
  have h : ((n : ℚ)) * 10 ^ 8 + 1 / 2 = ((n * 10 ^ 8 : ℤ) : ℚ) + 1 / 2 := by
    push_cast
    ring
  rw [h, Int.floor_int_add]
  push_cast
  norm_num

theorem round_to_8_decimals_105 : round_to_8_decimals 105 = 105 := by
  have h : ((105 : ℚ)) = ((105 : ℤ) : ℚ) := by norm_num
  rw [h, round_to_8_decimals_intCast]

theorem c7_initStep (params : IchimokuCloudParameters) (k : Nat) :
    IchimokuCloud.initStep (c7_state params k) c7_candle =
      (c7_state params (k + 1),
        if params.long_period ≤ k + 1 then some c7_result else none) := by
  have h1 : ((110 : ℚ) + 100) / 2 = 105 := by norm_num
  have h2 : ((105 : ℚ) + 105) / 2 = 105 := by norm_num
  simp [IchimokuCloud.initStep, c7_state, c7_candle, c7_result, h1, h2,
    round_to_8_decimals_105]

theorem c7_initStep_new (params : IchimokuCloudParameters) :
    IchimokuCloud.initStep (IchimokuCloud.new params) c7_candle =
      (c7_state params 1,
        if params.long_period ≤ 1 then some c7_result else none) := by
  have hmin : min f64_MAX 100 = (100 : ℚ) := by
    apply min_eq_right
    norm_num [f64_MAX]
  have hmax : max f64_MIN 110 = (110 : ℚ) := by
    apply max_eq_right
    norm_num [f64_MIN, f64_MAX]
  have h1 : ((110 : ℚ) + 100) / 2 = 105 := by norm_num
  have h2 : ((105 : ℚ) + 105) / 2 = 105 := by norm_num
  simp [IchimokuCloud.initStep, IchimokuCloud.new, c7_state, c7_candle,
    c7_result, hmin, hmax, h1, h2, round_to_8_decimals_105]

theorem c7_run (params : IchimokuCloudParameters) (k n : Nat) :
    IchimokuCloud.initialize (c7_state params k) (List.replicate n c7_candle) =
      (c7_state params (k + n),
        (List.range n).map fun i =>
          (c7_candle,
            if params.long_period ≤ k + i + 1 then some c7_result else none)) := by
  induction n generalizing k with
  | zero => simp [ IchimokuCloud.initialize]
  | succ n ih =>
    rw [List.replicate_succ]
    simp only [ IchimokuCloud.initialize]
    rw [c7_initStep]
    simp only []
    rw [ih (k + 1)]
    have harith : k + 1 + n = k + (n + 1) := by omega
    have hcond : ∀ i : Nat, (k + 1) + i + 1 = k + (i + 1) + 1 := by omega
    rw [List.range_succ_eq_map, List.map_cons, List.map_map]
    simp only [harith]
    congr 1
    simp only [Nat.add_zero]
    congr 1
    apply List.map_congr_left
    intro i _
    simp only [Function.comp_apply]
    rw [hcond i]

theorem initialize_nil (s : IchimokuCloud) : IchimokuCloud.initialize s [] = (s, []) := rfl

theorem initialize_cons (s : IchimokuCloud) (c : Candlestick) (rest : List Candlestick) :
    IchimokuCloud.initialize s (c :: rest) =
      (( IchimokuCloud.initialize (IchimokuCloud.initStep s c).1 rest).1,
        (c, (IchimokuCloud.initStep s c).2) ::
          ( IchimokuCloud.initialize (IchimokuCloud.initStep s c).1 rest).2) := rfl

/-- C7: with parameters short 9, medium 26, long 52, feeding a freshly
constructed engine 52 Closed candles with low 100, high 110, close 105 yields
`none` for the first 51 results and, for the 52nd, `some` result whose
tenkan-sen, kijun-sen, senkou spans A and B, and chikou span all equal 105
(8-decimal rounding leaves 105 unchanged). -/
theorem C7_concrete_scenario :
    ( IchimokuCloud.initialize (IchimokuCloud.new ⟨9, 26, 52⟩)
        (List.replicate 52 c7_candle)).2 =
      List.replicate 51 (c7_candle, none) ++
        [(c7_candle,
          some { tenkan_sen := 105, kijun_sen := 105, senkou_span_a := 105,
                 senkou_span_b := 105, chikou_span := 105 })] := by
  have hrep : List.replicate 52 c7_candle = c7_candle :: List.replicate 51 c7_candle := rfl
  rw [hrep, initialize_cons, c7_initStep_new ⟨9, 26, 52⟩]
  norm_num
  rw [c7_run ⟨9, 26, 52⟩ 1 51]
  dsimp only
  have hmap : List.map
        (fun i => (c7_candle, if (52 : Nat) ≤ 1 + i + 1 then some c7_result else none))
        (List.range 50)
      = List.replicate 50 (c7_candle, none) := by
    rw [List.eq_replicate_iff]
    constructor
    · simp
    · intro b hb
      rw [List.mem_map] at hb
      obtain ⟨i, hi, rfl⟩ := hb
      rw [List.mem_range] at hi
      rw [if_neg (by omega)]
  rw [List.range_succ, List.map_append, hmap]
  simp [c7_result, List.replicate_succ]

theorem initStep_fst (s : IchimokuCloud) (c : Candlestick) :
    (IchimokuCloud.initStep s c).1 = foldCandle s c := rfl

theorem initStep_snd_isSome (s : IchimokuCloud) (c : Candlestick) :
    (IchimokuCloud.initStep s c).2.isSome =
      decide (s.parameters.long_period ≤ s.num_processed + 1) := by
  by_cases h : s.parameters.long_period ≤ s.num_processed + 1
  · simp [IchimokuCloud.initStep, h]
  · simp [IchimokuCloud.initStep, h]

theorem initialize_snd_isSome (s : IchimokuCloud) (cs : List Candlestick) (i : Nat)
    (hi : i < cs.length) :
    (( IchimokuCloud.initialize s cs).2[i]?).map (fun p => p.2.isSome) =
      some (decide (s.parameters.long_period ≤ s.num_processed + i + 1)) := by
  induction cs generalizing s i with
  | nil => simp at hi
  | cons c rest ih =>
    rw [initialize_cons]
    cases i with
    | zero =>
      simp [initStep_snd_isSome]
    | succ i =>
      have hi' : i < rest.length := by simpa using hi
      have h := ih (IchimokuCloud.initStep s c).1 i hi'
      rw [initStep_fst] at h
      have hnum : (foldCandle s c).num_processed = s.num_processed + 1 := rfl
      have hpar : (foldCandle s c).parameters = s.parameters := rfl
      rw [hnum, hpar] at h
      have harith : s.num_processed + 1 + i + 1 = s.num_processed + (i + 1) + 1 := by omega
      rw [harith] at h
      simpa using h

/-- C1: for a freshly constructed engine with long period `L`, the result
component at index `i` of `initialize` over any candle list is `some` exactly
when `L ≤ i + 1` — so the first `L - 1` entries are `none` and every entry
from index `L - 1` on is `some`, for any list length and any candle
contents. -/
theorem C1_threshold (params : IchimokuCloudParameters) (candles : List Candlestick)
    (i : Nat) (hi : i < candles.length) :
    (( IchimokuCloud.initialize (IchimokuCloud.new params) candles).2[i]?).map
        (fun p => p.2.isSome) =
      some (decide (params.long_period ≤ i + 1)) := by
  have h := initialize_snd_isSome (IchimokuCloud.new params) candles i hi
  simpa [IchimokuCloud.new] using h

/-- Witness for C1: one candle, long period 1, index 0 — the entry is `some`. -/
theorem C1_threshold_witness :
    (0 : Nat) < ([c7_candle] : List Candlestick).length ∧
    (( IchimokuCloud.initialize (IchimokuCloud.new ⟨1, 1, 1⟩) [c7_candle]).2[0]?).map
        (fun p => p.2.isSome) =
      some (decide ((1 : Nat) ≤ 0 + 1)) :=
  ⟨by decide, C1_threshold ⟨1, 1, 1⟩ [c7_candle] 0 (by decide)⟩

theorem calculate_open_fst (s : IchimokuCloud) (c : Candlestick)
    (h : c.state = CandlestickState.Open) : (IchimokuCloud.calculate s c).1 = s := by
  unfold IchimokuCloud.calculate
  rw [h]

theorem foldl_calculate_open (s : IchimokuCloud) (opens : List Candlestick)
    (h : ∀ o ∈ opens, o.state = CandlestickState.Open) :
    List.foldl (fun t o => (IchimokuCloud.calculate t o).1) s opens = s := by
  induction opens generalizing s with
  | nil => rfl
  | cons o rest ih =>
    rw [List.foldl_cons, calculate_open_fst s o (h o (by simp))]
    exact ih s (fun o' ho' => h o' (by simp [ho']))

/-- C2: any number of Update calls with Open candles leaves every field of the
engine state unchanged, so following them with one more Update call gives
exactly the state and result of that single call made directly. -/
theorem C2_open_non_persistence (s : IchimokuCloud) (opens : List Candlestick)
    (hopen : ∀ o ∈ opens, o.state = CandlestickState.Open) (c : Candlestick) :
    List.foldl (fun t o => (IchimokuCloud.calculate t o).1) s opens = s ∧
    IchimokuCloud.calculate
        (List.foldl (fun t o => (IchimokuCloud.calculate t o).1) s opens) c =
      IchimokuCloud.calculate s c := by
  have h := foldl_calculate_open s opens hopen
  exact ⟨h, by rw [h]⟩

/-- Witness for C2: one Open candle followed by a Closed one on a fresh
engine. -/
theorem C2_open_non_persistence_witness :
    (∀ o ∈ ([c2_candle] : List Candlestick), o.state = CandlestickState.Open) ∧
    (List.foldl (fun t o => (IchimokuCloud.calculate t o).1)
        (IchimokuCloud.new ⟨9, 26, 52⟩) [c2_candle] = IchimokuCloud.new ⟨9, 26, 52⟩ ∧
      IchimokuCloud.calculate
          (List.foldl (fun t o => (IchimokuCloud.calculate t o).1)
            (IchimokuCloud.new ⟨9, 26, 52⟩) [c2_candle]) c7_candle =
        IchimokuCloud.calculate (IchimokuCloud.new ⟨9, 26, 52⟩) c7_candle) :=
  ⟨by simp [c2_candle],
    C2_open_non_persistence (IchimokuCloud.new ⟨9, 26, 52⟩) [c2_candle]
      (by simp [c2_candle]) c7_candle⟩

theorem calculate_closed_eq_initStep (s : IchimokuCloud) (c : Candlestick)
    (h : c.state = CandlestickState.Closed) :
    IchimokuCloud.calculate s c = IchimokuCloud.initStep s c := by
  unfold IchimokuCloud.calculate IchimokuCloud.initStep
  rw [h]

/-- C4: on a Closed candle, `calculate` and `initialize` with the one-element
sequence are the same step of the same state machine: identical post-state and
identical optional result (paired with the input candle). -/
theorem C4_single_step (s : IchimokuCloud) (c : Candlestick)
    (h : c.state = CandlestickState.Closed) :
    IchimokuCloud.initialize s [c] =
      ((IchimokuCloud.calculate s c).1, [(c, (IchimokuCloud.calculate s c).2)]) := by
  rw [calculate_closed_eq_initStep s c h, initialize_cons, initialize_nil]

/-- Witness for C4: a fresh engine and the concrete Closed candle. -/
theorem C4_single_step_witness :
    c7_candle.state = CandlestickState.Closed ∧
    IchimokuCloud.initialize (IchimokuCloud.new ⟨9, 26, 52⟩) [c7_candle] =
      ((IchimokuCloud.calculate (IchimokuCloud.new ⟨9, 26, 52⟩) c7_candle).1,
        [(c7_candle, (IchimokuCloud.calculate (IchimokuCloud.new ⟨9, 26, 52⟩) c7_candle).2)]) :=
  ⟨rfl, C4_single_step (IchimokuCloud.new ⟨9, 26, 52⟩) c7_candle rfl⟩

theorem calculate_closed_fst (s : IchimokuCloud) (c : Candlestick)
    (h : c.state = CandlestickState.Closed) :
    (IchimokuCloud.calculate s c).1 = foldCandle s c := by
  rw [calculate_closed_eq_initStep s c h, initStep_fst]

theorem initialize_fst (s : IchimokuCloud) (cs : List Candlestick) :
    ( IchimokuCloud.initialize s cs).1 = List.foldl foldCandle s cs := by
  induction cs generalizing s with
  | nil => rfl
  | cons c rest ih =>
    rw [initialize_cons]
    dsimp only
    rw [initStep_fst, ih, List.foldl_cons]

theorem extremaLE_refl (s : IchimokuCloud) : extremaLE s s :=
  ⟨le_refl _, le_refl _, le_refl _, le_refl _, le_refl _, le_refl _⟩

theorem extremaLE_trans {s t u : IchimokuCloud}
    (h1 : extremaLE s t) (h2 : extremaLE t u) : extremaLE s u := by
  obtain ⟨a1, a2, a3, a4, a5, a6⟩ := h1
  obtain ⟨b1, b2, b3, b4, b5, b6⟩ := h2
  exact ⟨le_trans a1 b1, le_trans a2 b2, le_trans a3 b3,
    le_trans b4 a4, le_trans b5 a5, le_trans b6 a6⟩

theorem extremaLE_foldCandle (s : IchimokuCloud) (c : Candlestick) :
    extremaLE s (foldCandle s c) :=
  ⟨le_max_left _ _, le_max_left _ _, le_max_left _ _,
    min_le_left _ _, min_le_left _ _, min_le_left _ _⟩

theorem boundsCandle_foldCandle (s : IchimokuCloud) (c : Candlestick) :
    boundsCandle (foldCandle s c) c :=
  ⟨le_max_right _ _, le_max_right _ _, le_max_right _ _,
    min_le_right _ _, min_le_right _ _, min_le_right _ _⟩

theorem boundsCandle_mono {t u : IchimokuCloud} {c : Candlestick}
    (hle : extremaLE t u) (hb : boundsCandle t c) : boundsCandle u c := by
  obtain ⟨a1, a2, a3, a4, a5, a6⟩ := hle
  obtain ⟨b1, b2, b3, b4, b5, b6⟩ := hb
  exact ⟨le_trans b1 a1, le_trans b2 a2, le_trans b3 a3,
    le_trans a4 b4, le_trans a5 b5, le_trans a6 b6⟩

theorem extremaLE_foldl (s : IchimokuCloud) (cs : List Candlestick) :
    extremaLE s (List.foldl foldCandle s cs) := by
  induction cs generalizing s with
  | nil => exact extremaLE_refl s
  | cons c rest ih =>
    rw [List.foldl_cons]
    exact extremaLE_trans (extremaLE_foldCandle s c) (ih (foldCandle s c))

theorem boundsCandle_foldl (s : IchimokuCloud) (cs : List Candlestick) :
    ∀ c ∈ cs, boundsCandle (List.foldl foldCandle s cs) c := by
  induction cs generalizing s with
  | nil => intro c hc; simp at hc
  | cons c rest ih =>
    intro c' hc'
    rw [List.foldl_cons]
    rcases List.mem_cons.1 hc' with h | h
    · subst h
      exact boundsCandle_mono (extremaLE_foldl (foldCandle s c') rest)
        (boundsCandle_foldCandle s c')
    · exact ih (foldCandle s c) c' h

theorem extremaLE_runOp (s : IchimokuCloud) (op : EngineOp) :
    extremaLE s (runOp s op) := by
  cases op with
  | init cs =>
    show extremaLE s ( IchimokuCloud.initialize s cs).1
    rw [initialize_fst]
    exact extremaLE_foldl s cs
  | update c =>
    show extremaLE s (IchimokuCloud.calculate s c).1
    cases hc : c.state with
    | Open => rw [calculate_open_fst s c hc]; exact extremaLE_refl s
    | Closed => rw [calculate_closed_fst s c hc]; exact extremaLE_foldCandle s c

theorem opsCandles_cons (op : EngineOp) (ops : List EngineOp) :
    opsCandles (op :: ops) = opCandles op ++ opsCandles ops := rfl

theorem runOps_closed (s : IchimokuCloud) (ops : List EngineOp)
    (h : ∀ c ∈ opsCandles ops, c.state = CandlestickState.Closed) :
    runOps s ops = List.foldl foldCandle s (opsCandles ops) := by
  induction ops generalizing s with
  | nil => rfl
  | cons op ops ih =>
    rw [opsCandles_cons, List.foldl_append]
    show runOps (runOp s op) ops = _
    have hop : runOp s op = List.foldl foldCandle s (opCandles op) := by
      cases op with
      | init cs =>
        show ( IchimokuCloud.initialize s cs).1 = _
        exact initialize_fst s cs
      | update c =>
        have hc : c.state = CandlestickState.Closed := by
          apply h
          rw [opsCandles_cons]
          simp [opCandles]
        show (IchimokuCloud.calculate s c).1 = _
        rw [calculate_closed_fst s c hc]
        rfl
    rw [hop]
    apply ih
    intro c hc
    apply h
    rw [opsCandles_cons]
    exact List.mem_append_right _ hc

/-- C5: starting from a fresh engine, after any sequence of Initialize and
Update calls whose candles are all Closed, every running maximum is at least
every high seen and every running minimum is at most every low seen; and every
single call (on any state, any candle) can only grow the maxima and shrink the
minima. -/
theorem C5_monotone_extrema (params : IchimokuCloudParameters) (ops : List EngineOp)
    (hclosed : ∀ c ∈ opsCandles ops, c.state = CandlestickState.Closed) :
    (∀ c ∈ opsCandles ops, boundsCandle (runOps (IchimokuCloud.new params) ops) c) ∧
    ∀ (s : IchimokuCloud) (op : EngineOp), extremaLE s (runOp s op) := by
  constructor
  · intro c hc
    rw [runOps_closed _ _ hclosed]
    exact boundsCandle_foldl _ _ c hc
  · intro s op
    exact extremaLE_runOp s op

/-- Witness for C5: a single Update call with the concrete Closed candle. -/
theorem C5_monotone_extrema_witness :
    (∀ c ∈ opsCandles [EngineOp.update c7_candle], c.state = CandlestickState.Closed) ∧
    ((∀ c ∈ opsCandles [EngineOp.update c7_candle],
        boundsCandle (runOps (IchimokuCloud.new ⟨9, 26, 52⟩) [EngineOp.update c7_candle]) c) ∧
      ∀ (s : IchimokuCloud) (op : EngineOp), extremaLE s (runOp s op)) :=
  ⟨by simp [opsCandles, opCandles, c7_candle],
    C5_monotone_extrema ⟨9, 26, 52⟩ [EngineOp.update c7_candle]
      (by simp [opsCandles, opCandles, c7_candle])⟩

theorem initStep_snd_eq (s : IchimokuCloud) (c : Candlestick) :
    (IchimokuCloud.initStep s c).2 =
      if s.parameters.long_period ≤ s.num_processed + 1 then
        some
          { tenkan_sen := round_to_8_decimals (tenkan_raw s c)
            kijun_sen := round_to_8_decimals (kijun_raw s c)
            senkou_span_a := round_to_8_decimals ((tenkan_raw s c + kijun_raw s c) / 2)
            senkou_span_b := round_to_8_decimals
              ((max s.long_period_max c.high + min s.long_period_min c.low) / 2)
            chikou_span := round_to_8_decimals c.close }
      else none := rfl

theorem calculate_open_snd (s : IchimokuCloud) (c : Candlestick)
    (h : c.state = CandlestickState.Open) :
    (IchimokuCloud.calculate s c).2 =
      if s.parameters.long_period ≤ s.num_processed then
        some
          { tenkan_sen := round_to_8_decimals (tenkan_raw s c)
            kijun_sen := round_to_8_decimals (kijun_raw s c)
            senkou_span_a := round_to_8_decimals ((tenkan_raw s c + kijun_raw s c) / 2)
            senkou_span_b := round_to_8_decimals
              ((max s.long_period_max c.high + min s.long_period_min c.low) / 2)
            chikou_span := round_to_8_decimals c.close }
      else none := by
  unfold IchimokuCloud.calculate
  rw [h]
  rfl

theorem some_of_ite {α : Type} {c : Prop} [Decidable c] {x r : α}
    (h : (if c then some x else none) = some r) : r = x := by
  split at h
  · exact (Option.some.inj h).symm
  · exact absurd h (by simp)

/-- C6: every result either entry point emits has its senkou span A equal to
`round8` of the average of the unrounded tenkan-sen and kijun-sen intermediate
values (and its tenkan-sen and kijun-sen fields equal to `round8` of those
unrounded values): rounding is applied once, at output, never to values that
feed further computation. -/
theorem C6_senkou_from_unrounded (s : IchimokuCloud) (c : Candlestick)
    (r : IchimokuCloudResult)
    (h : (IchimokuCloud.calculate s c).2 = some r ∨
      (IchimokuCloud.initStep s c).2 = some r) :
    r.senkou_span_a = round_to_8_decimals ((tenkan_raw s c + kijun_raw s c) / 2) ∧
    r.tenkan_sen = round_to_8_decimals (tenkan_raw s c) ∧
    r.kijun_sen = round_to_8_decimals (kijun_raw s c) := by
  rcases h with h | h
  · cases hc : c.state with
    | Open =>
      rw [calculate_open_snd s c hc] at h
      have hr := some_of_ite h
      subst hr
      exact ⟨rfl, rfl, rfl⟩
    | Closed =>
      rw [calculate_closed_eq_initStep s c hc, initStep_snd_eq] at h
      have hr := some_of_ite h
      subst hr
      exact ⟨rfl, rfl, rfl⟩
  · rw [initStep_snd_eq] at h
    have hr := some_of_ite h
    subst hr
    exact ⟨rfl, rfl, rfl⟩

theorem c7_calculate_60 :
    (IchimokuCloud.calculate (c7_state ⟨9, 26, 52⟩ 60) c7_candle).2 = some c7_result := by
  rw [calculate_closed_eq_initStep _ _ rfl, c7_initStep]
  norm_num

/-- Witness for C6: a state with extrema 100/110 and counter 60 emits on the
concrete candle, and the emitted fields match the unrounded intermediates. -/
theorem C6_senkou_from_unrounded_witness :
    (IchimokuCloud.calculate (c7_state ⟨9, 26, 52⟩ 60) c7_candle).2 = some c7_result ∧
    (c7_result.senkou_span_a = round_to_8_decimals
        ((tenkan_raw (c7_state ⟨9, 26, 52⟩ 60) c7_candle +
          kijun_raw (c7_state ⟨9, 26, 52⟩ 60) c7_candle) / 2) ∧
      c7_result.tenkan_sen = round_to_8_decimals
        (tenkan_raw (c7_state ⟨9, 26, 52⟩ 60) c7_candle) ∧
      c7_result.kijun_sen = round_to_8_decimals
        (kijun_raw (c7_state ⟨9, 26, 52⟩ 60) c7_candle)) :=
  ⟨c7_calculate_60,
    C6_senkou_from_unrounded (c7_state ⟨9, 26, 52⟩ 60) c7_candle c7_result
      (Or.inl c7_calculate_60)⟩

theorem extremaAligned_new (params : IchimokuCloudParameters) :
    extremaAligned (IchimokuCloud.new params) :=
  ⟨rfl, rfl, rfl, rfl⟩

theorem extremaAligned_foldCandle {s : IchimokuCloud} (h : extremaAligned s)
    (c : Candlestick) : extremaAligned (foldCandle s c) := by
  obtain ⟨h1, h2, h3, h4⟩ := h
  refine ⟨?_, ?_, ?_, ?_⟩
  · show min s.short_period_min c.low = min s.long_period_min c.low
    rw [h1]
  · show min s.medium_period_min c.low = min s.long_period_min c.low
    rw [h2]
  · show max s.short_period_max c.high = max s.long_period_max c.high
    rw [h3]
  · show max s.medium_period_max c.high = max s.long_period_max c.high
    rw [h4]

theorem extremaAligned_foldl {s : IchimokuCloud} (h : extremaAligned s)
    (cs : List Candlestick) : extremaAligned (List.foldl foldCandle s cs) := by
  induction cs generalizing s with
  | nil => exact h
  | cons c rest ih =>
    rw [List.foldl_cons]
    exact ih (extremaAligned_foldCandle h c)

theorem extremaAligned_runOp {s : IchimokuCloud} (h : extremaAligned s)
    (op : EngineOp) : extremaAligned (runOp s op) := by
  cases op with
  | init cs =>
    show extremaAligned ( IchimokuCloud.initialize s cs).1
    rw [initialize_fst]
    exact extremaAligned_foldl h cs
  | update c =>
    show extremaAligned (IchimokuCloud.calculate s c).1
    cases hc : c.state with
    | Open => rw [calculate_open_fst s c hc]; exact h
    | Closed => rw [calculate_closed_fst s c hc]; exact extremaAligned_foldCandle h c

theorem extremaAligned_runOps {s : IchimokuCloud} (h : extremaAligned s)
    (ops : List EngineOp) : extremaAligned (runOps s ops) := by
  induction ops generalizing s with
  | nil => exact h
  | cons op ops ih =>
    show extremaAligned (runOps (runOp s op) ops)
    exact ih (extremaAligned_runOp h op)

theorem result_fields_eq_of_aligned {s : IchimokuCloud} (h : extremaAligned s)
    {c : Candlestick} {r : IchimokuCloudResult}
    (hr : (IchimokuCloud.calculate s c).2 = some r ∨
      (IchimokuCloud.initStep s c).2 = some r) :
    r.tenkan_sen = r.kijun_sen ∧ r.kijun_sen = r.senkou_span_a ∧
    r.senkou_span_a = r.senkou_span_b := by
  obtain ⟨h1, h2, h3, h4⟩ := h
  have ht : tenkan_raw s c = kijun_raw s c := by
    unfold tenkan_raw kijun_raw
    rw [h1, h2, h3, h4]
  have hb : tenkan_raw s c =
      (max s.long_period_max c.high + min s.long_period_min c.low) / 2 := by
    unfold tenkan_raw
    rw [h1, h3]
  have ha : (tenkan_raw s c + tenkan_raw s c) / 2 = tenkan_raw s c := by ring
  have key : ∀ r', r' =
      ({ tenkan_sen := round_to_8_decimals (tenkan_raw s c)
         kijun_sen := round_to_8_decimals (kijun_raw s c)
         senkou_span_a := round_to_8_decimals ((tenkan_raw s c + kijun_raw s c) / 2)
         senkou_span_b := round_to_8_decimals
           ((max s.long_period_max c.high + min s.long_period_min c.low) / 2)
         chikou_span := round_to_8_decimals c.close } : IchimokuCloudResult) →
      r'.tenkan_sen = r'.kijun_sen ∧ r'.kijun_sen = r'.senkou_span_a ∧
      r'.senkou_span_a = r'.senkou_span_b := by
    intro r' hr'
    subst hr'
    refine ⟨?_, ?_, ?_⟩
    · show round_to_8_decimals (tenkan_raw s c) = round_to_8_decimals (kijun_raw s c)
      rw [ht]
    · show round_to_8_decimals (kijun_raw s c) =
        round_to_8_decimals ((tenkan_raw s c + kijun_raw s c) / 2)
      rw [← ht, ha]
    · show round_to_8_decimals ((tenkan_raw s c + kijun_raw s c) / 2) =
        round_to_8_decimals
          ((max s.long_period_max c.high + min s.long_period_min c.low) / 2)
      rw [← ht, ha, hb]
  rcases hr with hr | hr
  · cases hc : c.state with
    | Open =>
      rw [calculate_open_snd s c hc] at hr
      exact key r (some_of_ite hr)
    | Closed =>
      rw [calculate_closed_eq_initStep s c hc, initStep_snd_eq] at hr
      exact key r (some_of_ite hr)
  · rw [initStep_snd_eq] at hr
    exact key r (some_of_ite hr)

theorem obsEq_raws {s t : IchimokuCloud} (h : obsEq s t) (c : Candlestick) :
    tenkan_raw s c = tenkan_raw t c ∧ kijun_raw s c = kijun_raw t c ∧
    (max s.long_period_max c.high + min s.long_period_min c.low) / 2 =
      (max t.long_period_max c.high + min t.long_period_min c.low) / 2 := by
  obtain ⟨h1, h2, h3, h4, h5, h6, h7, h8⟩ := h
  refine ⟨?_, ?_, ?_⟩
  · unfold tenkan_raw
    rw [h1, h2]
  · unfold kijun_raw
    rw [h3, h4]
  · rw [h5, h6]

theorem obsEq_foldCandle {s t : IchimokuCloud} (h : obsEq s t) (c : Candlestick) :
    obsEq (foldCandle s c) (foldCandle t c) := by
  obtain ⟨h1, h2, h3, h4, h5, h6, h7, h8⟩ := h
  refine ⟨?_, ?_, ?_, ?_, ?_, ?_, ?_, ?_⟩
  · show min s.short_period_min c.low = min t.short_period_min c.low
    rw [h1]
  · show max s.short_period_max c.high = max t.short_period_max c.high
    rw [h2]
  · show min s.medium_period_min c.low = min t.medium_period_min c.low
    rw [h3]
  · show max s.medium_period_max c.high = max t.medium_period_max c.high
    rw [h4]
  · show min s.long_period_min c.low = min t.long_period_min c.low
    rw [h5]
  · show max s.long_period_max c.high = max t.long_period_max c.high
    rw [h6]
  · show s.num_processed + 1 = t.num_processed + 1
    rw [h7]
  · exact h8

theorem initStep_obsEq {s t : IchimokuCloud} (h : obsEq s t) (c : Candlestick) :
    (IchimokuCloud.initStep s c).2 = (IchimokuCloud.initStep t c).2 ∧
    obsEq (IchimokuCloud.initStep s c).1 (IchimokuCloud.initStep t c).1 := by
  obtain ⟨hr1, hr2, hr3⟩ := obsEq_raws h c
  constructor
  · obtain ⟨h1, h2, h3, h4, h5, h6, h7, h8⟩ := h
    rw [initStep_snd_eq, initStep_snd_eq, hr1, hr2, hr3, h7, h8]
  · rw [initStep_fst, initStep_fst]
    exact obsEq_foldCandle h c

theorem calculate_obsEq {s t : IchimokuCloud} (h : obsEq s t) (c : Candlestick) :
    (IchimokuCloud.calculate s c).2 = (IchimokuCloud.calculate t c).2 ∧
    obsEq (IchimokuCloud.calculate s c).1 (IchimokuCloud.calculate t c).1 := by
  cases hc : c.state with
  | Open =>
    obtain ⟨hr1, hr2, hr3⟩ := obsEq_raws h c
    constructor
    · obtain ⟨h1, h2, h3, h4, h5, h6, h7, h8⟩ := h
      rw [calculate_open_snd s c hc, calculate_open_snd t c hc, hr1, hr2, hr3, h7, h8]
    · rw [calculate_open_fst s c hc, calculate_open_fst t c hc]
      exact h
  | Closed =>
    rw [calculate_closed_eq_initStep s c hc, calculate_closed_eq_initStep t c hc]
    exact initStep_obsEq h c

theorem initialize_obsEq {s t : IchimokuCloud} (h : obsEq s t)
    (cs : List Candlestick) :
    ( IchimokuCloud.initialize s cs).2 = ( IchimokuCloud.initialize t cs).2 ∧
    obsEq ( IchimokuCloud.initialize s cs).1 ( IchimokuCloud.initialize t cs).1 := by
  induction cs generalizing s t with
  | nil => exact ⟨rfl, h⟩
  | cons c rest ih =>
    obtain ⟨hsnd, hfst⟩ := initStep_obsEq h c
    obtain ⟨ihsnd, ihfst⟩ := ih hfst
    rw [initialize_cons, initialize_cons]
    exact ⟨by rw [hsnd, ihsnd], ihfst⟩

theorem runOp_obsEq {s t : IchimokuCloud} (h : obsEq s t) (op : EngineOp) :
    obsEq (runOp s op) (runOp t op) := by
  cases op with
  | init cs => exact (initialize_obsEq h cs).2
  | update c => exact (calculate_obsEq h c).2

theorem runOps_obsEq {s t : IchimokuCloud} (h : obsEq s t) (ops : List EngineOp) :
    obsEq (runOps s ops) (runOps t ops) := by
  induction ops generalizing s t with
  | nil => exact h
  | cons op ops ih =>
    show obsEq (runOps (runOp s op) ops) (runOps (runOp t op) ops)
    exact ih (runOp_obsEq h op)

theorem obsEq_new {p q : IchimokuCloudParameters} (h : q.long_period = p.long_period) :
    obsEq (IchimokuCloud.new q) (IchimokuCloud.new p) :=
  ⟨rfl, rfl, rfl, rfl, rfl, rfl, rfl, h⟩

/-- C9 (implicit): in every state reachable from a fresh engine, the three
minima agree and the three maxima agree; consequently every emitted result has
tenkan-sen = kijun-sen = senkou span A = senkou span B; and two engines whose
parameters share only the long period produce identical outputs from both
entry points after any operation sequence — the short and medium periods never
influence any output. -/
theorem C9_collapsed_lines (params q : IchimokuCloudParameters)
    (hq : q.long_period = params.long_period) (ops : List EngineOp)
    (c : Candlestick) (cs : List Candlestick) (r : IchimokuCloudResult) :
    extremaAligned (runOps (IchimokuCloud.new params) ops) ∧
    ((IchimokuCloud.calculate (runOps (IchimokuCloud.new params) ops) c).2 = some r →
      r.tenkan_sen = r.kijun_sen ∧ r.kijun_sen = r.senkou_span_a ∧
      r.senkou_span_a = r.senkou_span_b) ∧
    (IchimokuCloud.calculate (runOps (IchimokuCloud.new q) ops) c).2 =
      (IchimokuCloud.calculate (runOps (IchimokuCloud.new params) ops) c).2 ∧
    ( IchimokuCloud.initialize (runOps (IchimokuCloud.new q) ops) cs).2 =
      ( IchimokuCloud.initialize (runOps (IchimokuCloud.new params) ops) cs).2 := by
  have haligned : extremaAligned (runOps (IchimokuCloud.new params) ops) :=
    extremaAligned_runOps (extremaAligned_new params) ops
  have hobs : obsEq (runOps (IchimokuCloud.new q) ops)
      (runOps (IchimokuCloud.new params) ops) :=
    runOps_obsEq (obsEq_new hq) ops
  refine ⟨haligned, ?_, (calculate_obsEq hobs c).1, (initialize_obsEq hobs cs).1⟩
  intro hr
  exact result_fields_eq_of_aligned haligned (Or.inl hr)

theorem c7_runOps_52 (p : IchimokuCloudParameters) :
    runOps (IchimokuCloud.new p) [EngineOp.init (List.replicate 52 c7_candle)] =
      c7_state p 52 := by
  show ( IchimokuCloud.initialize (IchimokuCloud.new p)
      (List.replicate 52 c7_candle)).1 = _
  rw [show List.replicate 52 c7_candle = c7_candle :: List.replicate 51 c7_candle
    from rfl, initialize_cons]
  dsimp only
  rw [c7_initStep_new p]
  dsimp only
  rw [c7_run p 1 51]

theorem c7_calculate_52 :
    (IchimokuCloud.calculate (c7_state ⟨9, 26, 52⟩ 52) c7_candle).2 = some c7_result := by
  rw [calculate_closed_eq_initStep _ _ rfl, c7_initStep]
  norm_num

/-- Witness for C9: parameters (9, 26, 52) versus (1, 2, 52), one Initialize
call of 52 concrete candles, then one more candle. -/
theorem C9_collapsed_lines_witness :
    ((⟨1, 2, 52⟩ : IchimokuCloudParameters).long_period =
      (⟨9, 26, 52⟩ : IchimokuCloudParameters).long_period) ∧
    extremaAligned (runOps (IchimokuCloud.new ⟨9, 26, 52⟩)
      [EngineOp.init (List.replicate 52 c7_candle)]) ∧
    (c7_result.tenkan_sen = c7_result.kijun_sen ∧
      c7_result.kijun_sen = c7_result.senkou_span_a ∧
      c7_result.senkou_span_a = c7_result.senkou_span_b) ∧
    (IchimokuCloud.calculate (runOps (IchimokuCloud.new ⟨1, 2, 52⟩)
        [EngineOp.init (List.replicate 52 c7_candle)]) c7_candle).2 =
      (IchimokuCloud.calculate (runOps (IchimokuCloud.new ⟨9, 26, 52⟩)
        [EngineOp.init (List.replicate 52 c7_candle)]) c7_candle).2 ∧
    ( IchimokuCloud.initialize (runOps (IchimokuCloud.new ⟨1, 2, 52⟩)
        [EngineOp.init (List.replicate 52 c7_candle)]) [c7_candle]).2 =
      ( IchimokuCloud.initialize (runOps (IchimokuCloud.new ⟨9, 26, 52⟩)
        [EngineOp.init (List.replicate 52 c7_candle)]) [c7_candle]).2 := by
  have h := C9_collapsed_lines ⟨9, 26, 52⟩ ⟨1, 2, 52⟩ rfl
    [EngineOp.init (List.replicate 52 c7_candle)] c7_candle [c7_candle] c7_result
  have hem : (IchimokuCloud.calculate (runOps (IchimokuCloud.new ⟨9, 26, 52⟩)
      [EngineOp.init (List.replicate 52 c7_candle)]) c7_candle).2 = some c7_result := by
    rw [c7_runOps_52]
    exact c7_calculate_52
  exact ⟨rfl, h.1, h.2.1 hem, h.2.2.1, h.2.2.2⟩

theorem foldl_num (s : IchimokuCloud) (cs : List Candlestick) :
    (List.foldl foldCandle s cs).num_processed = s.num_processed + cs.length := by
  induction cs generalizing s with
  | nil => simp
  | cons c rest ih =>
    rw [List.foldl_cons, ih]
    show s.num_processed + 1 + rest.length = _
    simp
    omega

theorem foldl_params (s : IchimokuCloud) (cs : List Candlestick) :
    (List.foldl foldCandle s cs).parameters = s.parameters := by
  induction cs generalizing s with
  | nil => rfl
  | cons c rest ih =>
    rw [List.foldl_cons, ih]
    rfl

theorem calculate_params (s : IchimokuCloud) (c : Candlestick) :
    (IchimokuCloud.calculate s c).1.parameters = s.parameters := by
  cases hc : c.state with
  | Open => rw [calculate_open_fst s c hc]
  | Closed =>
    rw [calculate_closed_fst s c hc]
    rfl

theorem calculate_num_mono (s : IchimokuCloud) (c : Candlestick) :
    s.num_processed ≤ (IchimokuCloud.calculate s c).1.num_processed := by
  cases hc : c.state with
  | Open => rw [calculate_open_fst s c hc]
  | Closed =>
    rw [calculate_closed_fst s c hc]
    exact Nat.le_succ _

theorem initialize_num_mono (s : IchimokuCloud) (cs : List Candlestick) :
    s.num_processed ≤ ( IchimokuCloud.initialize s cs).1.num_processed := by
  rw [initialize_fst, foldl_num]
  exact Nat.le_add_right _ _

theorem initialize_params (s : IchimokuCloud) (cs : List Candlestick) :
    ( IchimokuCloud.initialize s cs).1.parameters = s.parameters := by
  rw [initialize_fst, foldl_params]

theorem runOp_num_mono (t : IchimokuCloud) (op : EngineOp) :
    t.num_processed ≤ (runOp t op).num_processed := by
  cases op with
  | init cs => exact initialize_num_mono t cs
  | update c => exact calculate_num_mono t c

theorem runOp_params (t : IchimokuCloud) (op : EngineOp) :
    (runOp t op).parameters = t.parameters := by
  cases op with
  | init cs => exact initialize_params t cs
  | update c => exact calculate_params t c

theorem runOps_num_mono (s : IchimokuCloud) (ops : List EngineOp) :
    s.num_processed ≤ (runOps s ops).num_processed := by
  induction ops generalizing s with
  | nil => exact le_refl _
  | cons op ops ih =>
    exact le_trans (runOp_num_mono s op) (ih (runOp s op))

theorem runOps_params (s : IchimokuCloud) (ops : List EngineOp) :
    (runOps s ops).parameters = s.parameters := by
  induction ops generalizing s with
  | nil => rfl
  | cons op ops ih =>
    show (runOps (runOp s op) ops).parameters = _
    rw [ih (runOp s op), runOp_params]

theorem calculate_snd_eq (s : IchimokuCloud) (c : Candlestick) :
    (IchimokuCloud.calculate s c).2 =
      if (IchimokuCloud.calculate s c).1.parameters.long_period ≤
          (IchimokuCloud.calculate s c).1.num_processed then
        some
          { tenkan_sen := round_to_8_decimals (tenkan_raw s c)
            kijun_sen := round_to_8_decimals (kijun_raw s c)
            senkou_span_a := round_to_8_decimals ((tenkan_raw s c + kijun_raw s c) / 2)
            senkou_span_b := round_to_8_decimals
              ((max s.long_period_max c.high + min s.long_period_min c.low) / 2)
            chikou_span := round_to_8_decimals c.close }
      else none := rfl

theorem calculate_isSome_true_iff (s : IchimokuCloud) (c : Candlestick) :
    (IchimokuCloud.calculate s c).2.isSome = true ↔
      s.parameters.long_period ≤ (IchimokuCloud.calculate s c).1.num_processed := by
  rw [calculate_snd_eq, calculate_params]
  by_cases h : s.parameters.long_period ≤ (IchimokuCloud.calculate s c).1.num_processed
  · simp [h]
  · simp [h]

theorem initStep_isSome_le (s : IchimokuCloud) (c : Candlestick)
    (h : (IchimokuCloud.initStep s c).2.isSome = true) :
    s.parameters.long_period ≤ s.num_processed + 1 := by
  rw [initStep_snd_isSome] at h
  exact of_decide_eq_true h

theorem initialize_mem_isSome_le (s : IchimokuCloud) (cs : List Candlestick) :
    ∀ pr ∈ ( IchimokuCloud.initialize s cs).2, pr.2.isSome = true →
      s.parameters.long_period ≤ ( IchimokuCloud.initialize s cs).1.num_processed := by
  induction cs generalizing s with
  | nil => intro pr hpr; simp [initialize_nil] at hpr
  | cons c rest ih =>
    intro pr hpr hsome
    rw [initialize_cons] at hpr ⊢
    dsimp only at hpr ⊢
    rcases List.mem_cons.1 hpr with h | h
    · subst h
      have h1 : s.parameters.long_period ≤ s.num_processed + 1 :=
        initStep_isSome_le s c hsome
      have h2 : (IchimokuCloud.initStep s c).1.num_processed ≤
          ( IchimokuCloud.initialize (IchimokuCloud.initStep s c).1 rest).1.num_processed :=
        initialize_num_mono _ rest
      have h3 : (IchimokuCloud.initStep s c).1.num_processed = s.num_processed + 1 := rfl
      omega
    · have h4 := ih (IchimokuCloud.initStep s c).1 pr h hsome
      have h5 : (IchimokuCloud.initStep s c).1.parameters = s.parameters := rfl
      rw [h5] at h4
      exact h4

theorem calculate_isSome_of_threshold (s : IchimokuCloud) (c : Candlestick)
    (h : s.parameters.long_period ≤ s.num_processed) :
    (IchimokuCloud.calculate s c).2.isSome = true :=
  (calculate_isSome_true_iff s c).2 (le_trans h (calculate_num_mono s c))

theorem initialize_all_isSome (s : IchimokuCloud) (cs : List Candlestick)
    (h : s.parameters.long_period ≤ s.num_processed) :
    ∀ pr ∈ ( IchimokuCloud.initialize s cs).2, pr.2.isSome = true := by
  induction cs generalizing s with
  | nil => intro pr hpr; simp [initialize_nil] at hpr
  | cons c rest ih =>
    intro pr hpr
    rw [initialize_cons] at hpr
    dsimp only at hpr
    rcases List.mem_cons.1 hpr with hh | hh
    · subst hh
      rw [initStep_snd_isSome]
      exact decide_eq_true (le_trans h (Nat.le_succ _))
    · have h' : (IchimokuCloud.initStep s c).1.parameters.long_period ≤
          (IchimokuCloud.initStep s c).1.num_processed := by
        have h3 : (IchimokuCloud.initStep s c).1.num_processed = s.num_processed + 1 := rfl
        have h5 : (IchimokuCloud.initStep s c).1.parameters = s.parameters := rfl
        rw [h3, h5]
        omega
      exact ih (IchimokuCloud.initStep s c).1 h' pr hh

/-- C10 (implicit): the processed counter never decreases across calls, so
once one call of either entry point has produced a `some` result, every later
call — Update on any candle (Open or Closed) or Initialize on any further
candle — produces `some` as well: the engine never reverts to `none`. -/
theorem C10_emission_persistence (s s' : IchimokuCloud) (c0 : Candlestick)
    (cs0 : List Candlestick)
    (htrig : ((IchimokuCloud.calculate s c0).2.isSome = true ∧
        s' = (IchimokuCloud.calculate s c0).1) ∨
      ((∃ pr ∈ ( IchimokuCloud.initialize s cs0).2, pr.2.isSome = true) ∧
        s' = ( IchimokuCloud.initialize s cs0).1))
    (ops : List EngineOp) (c : Candlestick) :
    (∀ (t : IchimokuCloud) (op : EngineOp),
      t.num_processed ≤ (runOp t op).num_processed) ∧
    s.num_processed ≤ s'.num_processed ∧
    (IchimokuCloud.calculate (runOps s' ops) c).2.isSome = true ∧
    ∀ pr ∈ ( IchimokuCloud.initialize (runOps s' ops) [c]).2, pr.2.isSome = true := by
  have hth : s'.parameters.long_period ≤ s'.num_processed := by
    rcases htrig with ⟨hsome, rfl⟩ | ⟨⟨pr, hpr, hsome⟩, rfl⟩
    · rw [calculate_params]
      exact (calculate_isSome_true_iff s c0).1 hsome
    · rw [initialize_params]
      exact initialize_mem_isSome_le s cs0 pr hpr hsome
  have hmono : s.num_processed ≤ s'.num_processed := by
    rcases htrig with ⟨hsome, rfl⟩ | ⟨hex, rfl⟩
    · exact calculate_num_mono s c0
    · exact initialize_num_mono s cs0
  have hth' : (runOps s' ops).parameters.long_period ≤ (runOps s' ops).num_processed := by
    rw [runOps_params]
    exact le_trans hth (runOps_num_mono s' ops)
  exact ⟨runOp_num_mono, hmono,
    calculate_isSome_of_threshold _ c hth',
    initialize_all_isSome _ [c] hth'⟩

/-- Witness for C10: a state with counter 52 and long period 52 emits on a
Closed candle; afterwards even an Update with an Open candle and an Initialize
of one candle emit `some`. -/
theorem C10_emission_persistence_witness :
    ((IchimokuCloud.calculate (c7_state ⟨9, 26, 52⟩ 52) c7_candle).2.isSome = true) ∧
    ((∀ (t : IchimokuCloud) (op : EngineOp),
        t.num_processed ≤ (runOp t op).num_processed) ∧
      (c7_state ⟨9, 26, 52⟩ 52).num_processed ≤
        (IchimokuCloud.calculate (c7_state ⟨9, 26, 52⟩ 52) c7_candle).1.num_processed ∧
      (IchimokuCloud.calculate
          (runOps (IchimokuCloud.calculate (c7_state ⟨9, 26, 52⟩ 52) c7_candle).1 [])
          c2_candle).2.isSome = true ∧
      ∀ pr ∈ ( IchimokuCloud.initialize
          (runOps (IchimokuCloud.calculate (c7_state ⟨9, 26, 52⟩ 52) c7_candle).1 [])
          [c2_candle]).2, pr.2.isSome = true) := by
  have hsome : (IchimokuCloud.calculate (c7_state ⟨9, 26, 52⟩ 52) c7_candle).2.isSome
      = true := by
    rw [c7_calculate_52]
    rfl
  exact ⟨hsome,
    C10_emission_persistence (c7_state ⟨9, 26, 52⟩ 52) _ c7_candle []
      (Or.inl ⟨hsome, rfl⟩) [] c2_candle⟩

/-- C8: `round_to_8_decimals` is idempotent, and it either returns the
formatted-and-reparsed value or degrades to returning its input unchanged —
it never fails. -/
theorem C8_round8_idempotent (x : ℚ) :
    round_to_8_decimals (round_to_8_decimals x) = round_to_8_decimals x ∧
    (round_to_8_decimals x = format_8 x ∨ round_to_8_decimals x = x) := by
  refine ⟨?_, Or.inl rfl⟩
  show format_8 (format_8 x) = format_8 x
  exact format_8_format_8 x

/-- C3 as stated is false: the freshly constructed engine's `short_period_min`
is not `+∞` — it is not an upper bound of all values — because the code
initializes it to the finite sentinel `f64::MAX`, which `f64_MAX + 1`
exceeds. -/
theorem C3_counterexample :
    ¬ ∀ q : ℚ, q ≤ (IchimokuCloud.new ⟨9, 26, 52⟩).short_period_min := by
  intro h
  have h1 : f64_MAX + 1 ≤ f64_MAX := h (f64_MAX + 1)
  linarith

/-- C3 (amended): `new` initializes each `*_min` to the finite sentinel
`f64::MAX`, each `*_max` to `f64::MIN = -f64::MAX`, the counter to 0, and
stores the given parameters. -/
theorem C3_initial_state (params : IchimokuCloudParameters) :
    (IchimokuCloud.new params).short_period_min = f64_MAX ∧
    (IchimokuCloud.new params).medium_period_min = f64_MAX ∧
    (IchimokuCloud.new params).long_period_min = f64_MAX ∧
    (IchimokuCloud.new params).short_period_max = f64_MIN ∧
    (IchimokuCloud.new params).medium_period_max = f64_MIN ∧
    (IchimokuCloud.new params).long_period_max = f64_MIN ∧
    (IchimokuCloud.new params).num_processed = 0 ∧
    (IchimokuCloud.new params).parameters = params :=
  ⟨rfl, rfl, rfl, rfl, rfl, rfl, rfl, rfl⟩
